import Mathlib

set_option linter.unusedVariables false

/-!
Shallow embedding of `src/arxiv_pdf_scraper.py`, a sequential
browser-automation + download pipeline: search arXiv, enumerate PDF links,
download each one into a data directory, and append the links to a CSV file.

External effects are made explicit:
  * the filesystem is an association list from paths to byte lists;
  * the network is an oracle `String → HttpOutcome` giving, for each URL,
    the outcome of an HTTP GET (a response with a status and a body stream
    that either completes or is interrupted mid-transfer, or a request-level
    failure raising `requests.exceptions.RequestException`);
  * the CSV file is modelled by its text contents;
  * console output (`print`) is collected in a log.
-/

namespace ArxivScraper

/-- Bytes of a file. -/
abbrev Bytes := List Nat

/-- The filesystem: an association list from paths to file contents. -/
abbrev FS := List (String × Bytes)

/-- Look a path up in the filesystem. -/
def fsGet (fs : FS) (p : String) : Option Bytes :=
  (fs.find? (fun e => e.1 == p)).map (fun e => e.2)

/-- Create or overwrite (`open(..., "wb")` truncates) a file. -/
def fsSet (fs : FS) (p : String) (c : Bytes) : FS :=
  (p, c) :: fs.eraseP (fun e => e.1 == p)

/-- Python `str.split(sep)` for a one-character separator, on char lists.
`pySplit sep [] = [[]]`, matching Python where `"".split("/") == [""]`. -/
def pySplit (sep : Char) : List Char → List (List Char)
  | [] => [[]]
  | c :: cs =>
    if c = sep then [] :: pySplit sep cs
    else
      match pySplit sep cs with
      | [] => [[c]]
      | r :: rs => (c :: r) :: rs

/-- `file_url.split("/")[-1]`: the identifier extracted at line 26 of the
source, the last element of the split (Python index `-1`). -/
def file_id (file_url : String) : String :=
  String.mk ((pySplit '/' file_url.data).getLastD [])

/-- The download URL built at line 30 of the source. -/
def pdf_url_of (fid : String) : String :=
  "https://arxiv.org/pdf/" ++ fid ++ ".pdf"

/-- POSIX `os.path.join` for two components, as used at line 40: `b` if it
is absolute, otherwise `a` and `b` glued with a `/` unless `a` is empty or
already ends in `/`. -/
def os_path_join (a b : String) : String :=
  if b.data.head? = some '/' then b
  else if a.data = [] || a.data.getLast? = some '/' then a ++ b
  else a ++ "/" ++ b

/-- Outcome of streaming the body of an HTTP response
(`response.iter_content`): either every chunk arrives, or a
`RequestException` interrupts the stream after some chunks were delivered. -/
inductive StreamOutcome where
  | complete (chunks : List Bytes)
  | interrupted (delivered : List Bytes) (err : String)
deriving DecidableEq

/-- Outcome of `requests.get(url, ...)`: a response carrying a status code,
an optional content-length header and a body stream, or a request-level
`RequestException` (connection failure, timeout, ...). -/
inductive HttpOutcome where
  | response (status : Nat) (contentLength : Option Nat) (body : StreamOutcome)
  | requestError (err : String)
deriving DecidableEq

/-- The network: what an HTTP GET to each URL returns. -/
abbrev Net := String → HttpOutcome

/-- Embedding of `descargar_pdf(file_url, output_dir)` (source lines 17-58).
Returns the updated filesystem, the console log, and the Python return
value (`Some file_path` on success, `none` on any failure). -/
def descargar_pdf (net : Net) (file_url output_dir : String) (fs : FS) :
    FS × List String × Option String :=
  let fid := file_id file_url
  let pdf_url := pdf_url_of fid
  match net pdf_url with
  | HttpOutcome.requestError e =>
      (fs, ["Error en la descarga de " ++ pdf_url ++ ": " ++ e], none)
  | HttpOutcome.response status _cl body =>
      if status = 200 then
        let file_path := os_path_join output_dir (fid ++ ".pdf")
        match body with
        | StreamOutcome.complete chunks =>
            (fsSet fs file_path chunks.flatten,
             ["Archivo descargado: " ++ file_path], some file_path)
        | StreamOutcome.interrupted delivered e =>
            (fsSet fs file_path delivered.flatten,
             ["Error en la descarga de " ++ pdf_url ++ ": " ++ e], none)
      else
        (fs, ["Error al descargar " ++ pdf_url ++ ": Código " ++ toString status],
         none)

/-- Double every quote character, the escaping `csv.writer` applies inside
a quoted field. -/
def escape_quotes : List Char → List Char
  | [] => []
  | c :: cs =>
      if c = '"' then '"' :: '"' :: escape_quotes cs
      else c :: escape_quotes cs

/-- CSV encoding of one field under the default `csv.writer` dialect
(QUOTE_MINIMAL): quoted, with quotes doubled, iff it contains the
delimiter, the quote character, or a line-terminator character. -/
def csv_field (s : String) : String :=
  if s.data.contains ',' || s.data.contains '"'
      || s.data.contains '\r' || s.data.contains '\n' then
    String.mk ('"' :: escape_quotes s.data ++ ['"'])
  else s

/-- One `writer.writerow([link])`: the encoded field plus the default
line terminator `\r\n`. -/
def csv_row (link : String) : String := csv_field link ++ "\r\n"

/-- Embedding of `guardar_en_csv(links, file_path)` (source lines 61-75).
`writeFailure` models whether opening/writing the file raises; the body of
the `try` is guarded by `except Exception`, so the function always returns.
Returns the new contents of the list file and the console log. -/
def guardar_en_csv (writeFailure : Option String) (links : List String)
    (file_path : String) (contents : String) : String × List String :=
  match writeFailure with
  | some e => (contents, ["Error al escribir en CSV: " ++ e])
  | none =>
      (contents ++ String.join (links.map csv_row),
       [toString links.length ++ " enlaces guardados en " ++ file_path])

/-- `DATA_DIR = "data"` (source line 11). -/
def DATA_DIR : String := "data"

/-- `CSV_FILE = "articles_arxiv.csv"` (source line 12). -/
def CSV_FILE : String := "articles_arxiv.csv"

/-- The environment of one run: whether `wait_for_selector` times out, the
`href` attribute of each enumerated link element (`none` when the attribute
is absent), the network, and whether the CSV write raises. -/
structure Env where
  waitTimesOut : Bool
  hrefs : List (Option String)
  net : Net
  csvWriteFailure : Option String

/-- The persistent state touched by a run: downloaded files, the list
file's contents, and whether `example.png` was written. -/
structure World where
  fs : FS
  csv : String
  screenshotTaken : Bool
deriving DecidableEq

/-- Result of a run: aborted by an uncaught exception, or completed. -/
inductive RunResult where
  | aborted (err : String)
  | completed (log : List String)
deriving DecidableEq

/-- The `for i in range(count)` loop of `scrape_arxiv` (source lines
115-122): for each element, read its `href`; when present, append it to
`pdf_links` and call `descargar_pdf(href, DATA_DIR)`, discarding the
returned path. Returns the filesystem, `pdf_links`, and the log. -/
def download_loop (net : Net) : List (Option String) → FS → FS × List String × List String
  | [], fs => (fs, [], [])
  | none :: rest, fs => download_loop net rest fs
  | some href :: rest, fs =>
      let r := descargar_pdf net href DATA_DIR fs
      let res := download_loop net rest r.1
      (res.1, href :: res.2.1, r.2.1 ++ res.2.2)

/-- Embedding of `scrape_arxiv(search_term)` (source lines 82-133).
Navigation, filling the search box and clicking do not touch the world;
if `wait_for_selector` times out its `TimeoutError` propagates and the run
aborts with the world unchanged. Otherwise the link loop runs, then
`guardar_en_csv(pdf_links, CSV_FILE)`, then the screenshot. -/
def scrape_arxiv (env : Env) (search_term : String) (w : World) :
    World × RunResult :=
  if env.waitTimesOut then (w, RunResult.aborted ("playwright TimeoutError"))
  else
    let d := download_loop env.net env.hrefs w.fs
    let g := guardar_en_csv env.csvWriteFailure d.2.1 CSV_FILE w.csv
    (⟨d.1, g.1, true⟩, RunResult.completed (d.2.2 ++ g.2))

/-! ### Helper lemmas -/

/-- `pySplit` never returns an empty list of pieces. -/
theorem pySplit_ne_nil (sep : Char) (l : List Char) : pySplit sep l ≠ [] := by
  cases l with
  | nil => simp [pySplit]
  | cons c cs =>
    by_cases hc : c = sep
    · simp [pySplit, hc]
    · rcases h : pySplit sep cs with _ | ⟨r, rs⟩ <;>
        simp [pySplit, if_neg hc, h]

/-- Splitting around an explicit occurrence of the separator splits the
two sides independently. -/
theorem pySplit_append_sep (sep : Char) (a b : List Char) :
    pySplit sep (a ++ sep :: b) = pySplit sep a ++ pySplit sep b := by
  induction a with
  | nil => simp [pySplit]
  | cons c cs ih =>
    by_cases hc : c = sep
    · simp [pySplit, hc, ih]
    · rcases hcs : pySplit sep cs with _ | ⟨r, rs⟩
      · exact absurd hcs (pySplit_ne_nil sep cs)
      · simp [pySplit, if_neg hc, ih, hcs]

/-- A list free of the separator is a single piece. -/
theorem pySplit_of_not_mem (sep : Char) (l : List Char) (h : sep ∉ l) :
    pySplit sep l = [l] := by
  induction l with
  | nil => simp [pySplit]
  | cons c cs ih =>
    have hc : c ≠ sep := fun hcs => h (hcs ▸ List.mem_cons_self c cs)
    have hcs : sep ∉ cs := fun hm => h (List.mem_cons_of_mem _ hm)
    simp [pySplit, if_neg hc, ih hcs]

/-- The last element of a list ending in `a` is `a`. -/
theorem getLastD_append_singleton {α : Type} (l : List α) (a d : α) :
    (l ++ [a]).getLastD d = a := by
  induction l generalizing d with
  | nil => rfl
  | cons x xs ih => rw [List.cons_append, List.getLastD_cons, ih]

/-- The identifier of a URL of shape `pre ++ "/" ++ seg`, with `seg` free
of slashes, is exactly `seg`. -/
theorem file_id_concat (pre seg : List Char) (h : '/' ∉ seg) :
    file_id (String.mk (pre ++ '/' :: seg)) = String.mk seg := by
  unfold file_id
  rw [show (String.mk (pre ++ '/' :: seg)).data = pre ++ '/' :: seg from rfl]
  rw [pySplit_append_sep, pySplit_of_not_mem _ _ h, getLastD_append_singleton]

/-- Reading back the path just written. -/
theorem fsGet_fsSet (fs : FS) (p : String) (c : Bytes) :
    fsGet (fsSet fs p c) p = some c := by
  simp [fsGet, fsSet]

/-- Unfolding `descargar_pdf` when the GET yields 200 and the stream
completes. -/
theorem descargar_pdf_complete (net : Net) (u dir : String) (fs : FS)
    (cl : Option Nat) (chunks : List Bytes)
    (h : net (pdf_url_of (file_id u)) =
      HttpOutcome.response 200 cl (StreamOutcome.complete chunks)) :
    descargar_pdf net u dir fs =
      (fsSet fs (os_path_join dir (file_id u ++ ".pdf")) chunks.flatten,
       ["Archivo descargado: " ++ os_path_join dir (file_id u ++ ".pdf")],
       some (os_path_join dir (file_id u ++ ".pdf"))) := by
  simp [descargar_pdf, h]

/-- Unfolding `descargar_pdf` when the GET yields a non-200 status. -/
theorem descargar_pdf_non200 (net : Net) (u dir : String) (fs : FS)
    (status : Nat) (cl : Option Nat) (body : StreamOutcome)
    (h : net (pdf_url_of (file_id u)) = HttpOutcome.response status cl body)
    (hs : status ≠ 200) :
    descargar_pdf net u dir fs =
      (fs, ["Error al descargar " ++ pdf_url_of (file_id u)
              ++ ": Código " ++ toString status], none) := by
  simp [descargar_pdf, h, hs]

/-- Unfolding `descargar_pdf` when the GET yields 200 but the stream is
interrupted by a `RequestException`. -/
theorem descargar_pdf_interrupted (net : Net) (u dir : String) (fs : FS)
    (cl : Option Nat) (delivered : List Bytes) (e : String)
    (h : net (pdf_url_of (file_id u)) =
      HttpOutcome.response 200 cl (StreamOutcome.interrupted delivered e)) :
    descargar_pdf net u dir fs =
      (fsSet fs (os_path_join dir (file_id u ++ ".pdf")) delivered.flatten,
       ["Error en la descarga de " ++ pdf_url_of (file_id u) ++ ": " ++ e],
       none) := by
  simp [descargar_pdf, h]

/-- The links collected by the loop are exactly the present hrefs, in
encounter order, whatever the network does. -/
theorem download_loop_links (net : Net) (hrefs : List (Option String)) (fs : FS) :
    (download_loop net hrefs fs).2.1 = hrefs.filterMap id := by
  induction hrefs generalizing fs with
  | nil => simp [download_loop]
  | cons h rest ih =>
    cases h with
    | none => simp [download_loop, ih]
    | some href => simp [download_loop, ih]

/-- The CSV contents after a completed run with a successful write. -/
theorem scrape_csv (env : Env) (term : String) (w : World)
    (hwait : env.waitTimesOut = false) (hcsv : env.csvWriteFailure = none) :
    (scrape_arxiv env term w).1.csv =
      w.csv ++ String.join ((env.hrefs.filterMap id).map csv_row) := by
  simp [scrape_arxiv, hwait, guardar_en_csv, hcsv, download_loop_links]

/-! ### Concrete environments used by witnesses -/

/-- A network where the canonical PDF URL of `2301.04567` answers 200 with
a two-chunk body and everything else fails at request level. -/
def netOk : Net := fun url =>
  if url = ("https://arxiv.org/pdf/2301.04567.pdf") then
    HttpOutcome.response 200 (some 2) (StreamOutcome.complete [[37], [80]])
  else HttpOutcome.requestError ("connection refused")

/-- A network answering 404 to every GET. -/
def net404 : Net := fun _ =>
  HttpOutcome.response 404 none (StreamOutcome.complete [])

/-- A network answering 200 everywhere but cutting every stream after one
chunk. -/
def netCut : Net := fun _ =>
  HttpOutcome.response 200 (some 9)
    (StreamOutcome.interrupted [[37]] ("connection reset"))

/-- A network like `netOk` but serving different bytes, for the second of
two downloads of the same identifier. -/
def netOk2 : Net := fun url =>
  if url = ("https://arxiv.org/pdf/2301.04567.pdf") then
    HttpOutcome.response 200 (some 3) (StreamOutcome.complete [[1, 2, 3]])
  else HttpOutcome.requestError ("connection refused")

/-- An environment with one good link, one href-less element, the `netOk`
network and a working CSV file. -/
def envA : Env :=
  ⟨false, [some ("https://arxiv.org/abs/2301.04567"), none], netOk, none⟩

/-- `envA` with a search wait that times out. -/
def envT : Env :=
  ⟨true, [some ("https://arxiv.org/abs/2301.04567"), none], netOk, none⟩

/-- `envA` with a CSV write that raises. -/
def envF : Env :=
  ⟨false, [some ("https://arxiv.org/abs/2301.04567"), none], netOk,
   some ("disk full")⟩

/-- An initial world: empty filesystem, empty list file, no screenshot. -/
def w0 : World := ⟨[], "", false⟩

/-! ### Claims -/

/-- C1: for every link URL, `descargar_pdf` derives the identifier as the
final path segment (for `https://arxiv.org/pdf/2301.04567` it is
`2301.04567`), builds the download URL
`https://arxiv.org/pdf/<identifier>.pdf`, and on an HTTP 200 response
writes the body to `<identifier>.pdf` under the output directory and
returns that path. -/
theorem c1_download_success (net : Net) (file_url output_dir : String) (fs : FS)
    (cl : Option Nat) (chunks : List Bytes)
    (h : net (pdf_url_of (file_id file_url)) =
      HttpOutcome.response 200 cl (StreamOutcome.complete chunks)) :
    descargar_pdf net file_url output_dir fs =
      (fsSet fs (os_path_join output_dir (file_id file_url ++ ".pdf")) chunks.flatten,
       ["Archivo descargado: " ++ os_path_join output_dir (file_id file_url ++ ".pdf")],
       some (os_path_join output_dir (file_id file_url ++ ".pdf"))) ∧
    file_id ("https://arxiv.org/pdf/2301.04567") = ("2301.04567") ∧
    pdf_url_of (file_id ("https://arxiv.org/pdf/2301.04567")) =
      ("https://arxiv.org/pdf/2301.04567.pdf") :=
  ⟨descargar_pdf_complete net file_url output_dir fs cl chunks h, rfl, rfl⟩

/-- C1 witness: downloading `https://arxiv.org/pdf/2301.04567` against
`netOk` into `data` writes `data/2301.04567.pdf` with the streamed bytes
and returns its path. -/
theorem c1_download_success_witness :
    descargar_pdf netOk ("https://arxiv.org/pdf/2301.04567") ("data") [] =
      ([(("data/2301.04567.pdf"), ([37, 80] : Bytes))],
       ["Archivo descargado: data/2301.04567.pdf"], some ("data/2301.04567.pdf")) ∧
    file_id ("https://arxiv.org/pdf/2301.04567") = ("2301.04567") ∧
    pdf_url_of (file_id ("https://arxiv.org/pdf/2301.04567")) =
      ("https://arxiv.org/pdf/2301.04567.pdf") := by
  exact c1_download_success netOk ("https://arxiv.org/pdf/2301.04567") ("data") []
    (some 2) [[37], [80]] (by rfl)

/-- C3: on a non-200 response `descargar_pdf` leaves the filesystem
untouched, logs the status, and returns `none` (its codomain is a plain
product: no exception escapes); the download loop then goes on with the
remaining links. -/
theorem c3_non200_no_file (net : Net) (file_url output_dir : String) (fs : FS)
    (status : Nat) (cl : Option Nat) (body : StreamOutcome)
    (h : net (pdf_url_of (file_id file_url)) = HttpOutcome.response status cl body)
    (hs : status ≠ 200) :
    descargar_pdf net file_url output_dir fs =
      (fs, ["Error al descargar " ++ pdf_url_of (file_id file_url)
              ++ ": Código " ++ toString status], none) ∧
    ∀ rest : List (Option String),
      download_loop net (some file_url :: rest) fs =
        ((download_loop net rest fs).1,
         file_url :: (download_loop net rest fs).2.1,
         ("Error al descargar " ++ pdf_url_of (file_id file_url)
            ++ ": Código " ++ toString status) :: (download_loop net rest fs).2.2) := by
  refine ⟨descargar_pdf_non200 net file_url output_dir fs status cl body h hs,
    fun rest => ?_⟩
  simp [download_loop,
    descargar_pdf_non200 net file_url DATA_DIR fs status cl body h hs]

/-- C3 witness: a 404 on `https://arxiv.org/abs/9999.00001` creates no
file, returns `none`, and the loop still visits the rest of the list. -/
theorem c3_non200_no_file_witness :
    descargar_pdf net404 ("https://arxiv.org/abs/9999.00001") ("data") [] =
      ([], ["Error al descargar https://arxiv.org/pdf/9999.00001.pdf: Código 404"],
       none) ∧
    ∀ rest : List (Option String),
      download_loop net404 (some ("https://arxiv.org/abs/9999.00001") :: rest) [] =
        ((download_loop net404 rest []).1,
         ("https://arxiv.org/abs/9999.00001") :: (download_loop net404 rest []).2.1,
         ("Error al descargar https://arxiv.org/pdf/9999.00001.pdf: Código 404")
           :: (download_loop net404 rest []).2.2) := by
  exact c3_non200_no_file net404 ("https://arxiv.org/abs/9999.00001") ("data") []
    404 none (StreamOutcome.complete []) (by rfl) (by decide)

/-- C9: when the 200 stream is interrupted by a `RequestException`,
`descargar_pdf` returns `none`, yet the output file has already been
created and holds the bytes delivered before the cut. -/
theorem c9_interrupted_partial_file (net : Net) (u dir : String) (fs : FS)
    (cl : Option Nat) (delivered : List Bytes) (e : String)
    (h : net (pdf_url_of (file_id u)) =
      HttpOutcome.response 200 cl (StreamOutcome.interrupted delivered e)) :
    (descargar_pdf net u dir fs).2.2 = none ∧
    fsGet (descargar_pdf net u dir fs).1 (os_path_join dir (file_id u ++ ".pdf")) =
      some delivered.flatten := by
  rw [descargar_pdf_interrupted net u dir fs cl delivered e h]
  exact ⟨rfl, fsGet_fsSet _ _ _⟩

/-- C9 witness: against `netCut` the download of
`https://arxiv.org/abs/2301.04567` returns `none` while
`data/2301.04567.pdf` exists holding the one delivered chunk. -/
theorem c9_interrupted_partial_file_witness :
    (descargar_pdf netCut ("https://arxiv.org/abs/2301.04567") ("data") []).2.2 =
      none ∧
    fsGet (descargar_pdf netCut ("https://arxiv.org/abs/2301.04567") ("data") []).1
        (os_path_join ("data") (file_id ("https://arxiv.org/abs/2301.04567") ++ ".pdf")) =
      some (List.flatten [[37]]) := by
  exact c9_interrupted_partial_file netCut ("https://arxiv.org/abs/2301.04567")
    ("data") [] (some 9) [[37]] ("connection reset") (by rfl)

/-- C10: the identifier is the raw text after the last `/`, with no
sanitisation: a URL ending in `/` gives the empty identifier, download URL
`https://arxiv.org/pdf/.pdf` and filename `.pdf`; a query string stays
inside the identifier. -/
theorem c10_raw_identifier :
    (∀ l : List Char, file_id (String.mk (l ++ ['/'])) = ("")) ∧
    pdf_url_of (file_id ("https://arxiv.org/abs/")) =
      ("https://arxiv.org/pdf/.pdf") ∧
    (file_id ("https://arxiv.org/abs/") ++ ".pdf") = (".pdf") ∧
    (∀ pre seg : List Char, '/' ∉ seg →
      file_id (String.mk (pre ++ '/' :: seg)) = String.mk seg) ∧
    file_id ("https://arxiv.org/pdf/2301.04567?download=1") =
      ("2301.04567?download=1") := by
  refine ⟨fun l => ?_, rfl, rfl, fun pre seg h => file_id_concat pre seg h, rfl⟩
  exact file_id_concat l [] (by simp)

/-- C10 witness: concrete instances of the two universal parts. -/
theorem c10_raw_identifier_witness :
    file_id (String.mk (("https://x.org/abs").data ++ ['/'])) = ("") ∧
    file_id (String.mk (("https://x.org/pdf").data ++ '/' :: ("23?q=1").data)) =
      String.mk (("23?q=1").data) := by
  exact ⟨c10_raw_identifier.1 (("https://x.org/abs").data),
    (c10_raw_identifier.2.2.2.1) (("https://x.org/pdf").data) (("23?q=1").data)
      (by decide)⟩

/-- C2: after a run that reaches the recording step, the list file holds
exactly the present hrefs in encounter order (href-less elements skipped),
appended after the rows already there; a second run appends the same rows
again instead of deduplicating. -/
theorem c2_list_file_rows (env : Env) (term : String) (w : World)
    (hwait : env.waitTimesOut = false) (hcsv : env.csvWriteFailure = none) :
    (scrape_arxiv env term w).1.csv =
      w.csv ++ String.join ((env.hrefs.filterMap id).map csv_row) ∧
    (scrape_arxiv env term (scrape_arxiv env term w).1).1.csv =
      (scrape_arxiv env term w).1.csv
        ++ String.join ((env.hrefs.filterMap id).map csv_row) :=
  ⟨scrape_csv env term w hwait hcsv, scrape_csv env term _ hwait hcsv⟩

/-- C2 witness: one run on `envA` records the single present href; a
second run appends it again. -/
theorem c2_list_file_rows_witness :
    (scrape_arxiv envA ("learning") w0).1.csv =
      ("https://arxiv.org/abs/2301.04567\r\n") ∧
    (scrape_arxiv envA ("learning") (scrape_arxiv envA ("learning") w0).1).1.csv =
      (scrape_arxiv envA ("learning") w0).1.csv
        ++ ("https://arxiv.org/abs/2301.04567\r\n") := by
  exact c2_list_file_rows envA ("learning") w0 (by rfl) (by rfl)

/-- C4: when the wait for the result selector times out, the run aborts
with the world untouched: no file is downloaded and the list file keeps
its previous contents. -/
theorem c4_timeout_aborts (env : Env) (term : String) (w : World)
    (h : env.waitTimesOut = true) :
    scrape_arxiv env term w = (w, RunResult.aborted ("playwright TimeoutError")) ∧
    (scrape_arxiv env term w).1.fs = w.fs ∧
    (scrape_arxiv env term w).1.csv = w.csv := by
  refine ⟨?_, ?_, ?_⟩ <;> simp [scrape_arxiv, h]

/-- C4 witness: on `envT` the run aborts and the world is unchanged. -/
theorem c4_timeout_aborts_witness :
    scrape_arxiv envT ("learning") w0 =
      (w0, RunResult.aborted ("playwright TimeoutError")) ∧
    (scrape_arxiv envT ("learning") w0).1.fs = w0.fs ∧
    (scrape_arxiv envT ("learning") w0).1.csv = w0.csv := by
  exact c4_timeout_aborts envT ("learning") w0 (by rfl)

/-- C5: a failing CSV write is caught by `guardar_en_csv`, which logs it
and returns; the run completes (is not aborted) and the files downloaded
earlier in the run are still on disk. -/
theorem c5_csv_failure_recovered (env : Env) (term : String) (w : World)
    (e : String) (links : List String) (fp contents : String)
    (hwait : env.waitTimesOut = false) (hcsv : env.csvWriteFailure = some e) :
    guardar_en_csv (some e) links fp contents =
      (contents, ["Error al escribir en CSV: " ++ e]) ∧
    (scrape_arxiv env term w).1.fs = (download_loop env.net env.hrefs w.fs).1 ∧
    (scrape_arxiv env term w).1.csv = w.csv ∧
    (scrape_arxiv env term w).2 =
      RunResult.completed ((download_loop env.net env.hrefs w.fs).2.2
        ++ ["Error al escribir en CSV: " ++ e]) := by
  refine ⟨rfl, ?_, ?_, ?_⟩ <;> simp [scrape_arxiv, hwait, guardar_en_csv, hcsv]

/-- C5 witness: on `envF` the write error is logged, the run completes,
and the downloaded `data/2301.04567.pdf` is still in the filesystem. -/
theorem c5_csv_failure_recovered_witness :
    guardar_en_csv (some ("disk full")) [("x")] ("f") ("c") =
      (("c"), ["Error al escribir en CSV: disk full"]) ∧
    (scrape_arxiv envF ("learning") w0).1.fs =
      (download_loop envF.net envF.hrefs w0.fs).1 ∧
    (scrape_arxiv envF ("learning") w0).1.csv = w0.csv ∧
    (scrape_arxiv envF ("learning") w0).2 =
      RunResult.completed ((download_loop envF.net envF.hrefs w0.fs).2.2
        ++ ["Error al escribir en CSV: disk full"]) := by
  exact c5_csv_failure_recovered envF ("learning") w0 ("disk full") [("x")]
    ("f") ("c") (by rfl) (by rfl)

/-- C6: when two links derive the same identifier, the second download
(possibly seeing a different network state) silently overwrites the file
written by the first and still reports success. -/
theorem c6_same_identifier_overwrites (netA netB : Net) (u1 u2 dir : String)
    (fs : FS) (cl1 cl2 : Option Nat) (c1 c2 : List Bytes)
    (hid : file_id u1 = file_id u2)
    (h1 : netA (pdf_url_of (file_id u1)) =
      HttpOutcome.response 200 cl1 (StreamOutcome.complete c1))
    (h2 : netB (pdf_url_of (file_id u2)) =
      HttpOutcome.response 200 cl2 (StreamOutcome.complete c2)) :
    fsGet (descargar_pdf netA u1 dir fs).1
        (os_path_join dir (file_id u2 ++ ".pdf")) = some c1.flatten ∧
    fsGet (descargar_pdf netB u2 dir (descargar_pdf netA u1 dir fs).1).1
        (os_path_join dir (file_id u2 ++ ".pdf")) = some c2.flatten ∧
    (descargar_pdf netB u2 dir (descargar_pdf netA u1 dir fs).1).2.2 =
      some (os_path_join dir (file_id u2 ++ ".pdf")) := by
  rw [descargar_pdf_complete netA u1 dir fs cl1 c1 h1]
  rw [descargar_pdf_complete netB u2 dir _ cl2 c2 h2]
  rw [hid]
  exact ⟨fsGet_fsSet _ _ _, fsGet_fsSet _ _ _, rfl⟩

/-- C6 witness: `https://arxiv.org/abs/2301.04567` and
`https://arxiv.org/pdf/2301.04567` share the identifier; the second
download (serving different bytes) overwrites the first file. -/
theorem c6_same_identifier_overwrites_witness :
    fsGet (descargar_pdf netOk ("https://arxiv.org/abs/2301.04567") ("data") []).1
        (os_path_join ("data")
          (file_id ("https://arxiv.org/pdf/2301.04567") ++ ".pdf")) =
      some (List.flatten [[37], [80]]) ∧
    fsGet (descargar_pdf netOk2 ("https://arxiv.org/pdf/2301.04567") ("data")
        (descargar_pdf netOk ("https://arxiv.org/abs/2301.04567") ("data") []).1).1
        (os_path_join ("data")
          (file_id ("https://arxiv.org/pdf/2301.04567") ++ ".pdf")) =
      some (List.flatten [[1, 2, 3]]) ∧
    (descargar_pdf netOk2 ("https://arxiv.org/pdf/2301.04567") ("data")
        (descargar_pdf netOk ("https://arxiv.org/abs/2301.04567") ("data") []).1).2.2 =
      some (os_path_join ("data")
        (file_id ("https://arxiv.org/pdf/2301.04567") ++ ".pdf")) := by
  exact c6_same_identifier_overwrites netOk netOk2
    ("https://arxiv.org/abs/2301.04567") ("https://arxiv.org/pdf/2301.04567")
    ("data") [] (some 2) (some 3) [[37], [80]] [[1, 2, 3]]
    (by rfl) (by rfl) (by rfl)

/-- C7 counterexample: the code never validates the search term; with the
empty term the session proceeds to download and record exactly as with any
other term, refuting the claim that a non-empty check gates the session. -/
theorem c7_counterexample :
    (scrape_arxiv envA ("") w0).2 =
      RunResult.completed ["Archivo descargado: data/2301.04567.pdf",
        "1 enlaces guardados en articles_arxiv.csv"] ∧
    (scrape_arxiv envA ("") w0).1.csv =
      ("https://arxiv.org/abs/2301.04567\r\n") ∧
    (scrape_arxiv envA ("") w0).1.fs =
      [(("data/2301.04567.pdf"), ([37, 80] : Bytes))] := by
  exact ⟨rfl, rfl, rfl⟩

/-- C7 amended: no validation at all is applied to the search term; the
run's outcome is independent of the term (the empty term included), and
the run aborts exactly when the result-selector wait times out. -/
theorem c7_no_validation (env : Env) (term : String) (w : World) :
    scrape_arxiv env term w = scrape_arxiv env ("") w ∧
    ((scrape_arxiv env term w).2 = RunResult.aborted ("playwright TimeoutError")
      ↔ env.waitTimesOut = true) := by
  refine ⟨rfl, ?_⟩
  cases h : env.waitTimesOut <;> simp [scrape_arxiv, h]

/-- C8: every present href is recorded whatever the network did: the loop
collects the links before calling `descargar_pdf` and discards its return
value, so the recorded rows do not depend on the network at all. -/
theorem c8_links_recorded_regardless (env : Env) (netB : Net) (term : String)
    (w : World) (hwait : env.waitTimesOut = false)
    (hcsv : env.csvWriteFailure = none) :
    (download_loop env.net env.hrefs w.fs).2.1 = env.hrefs.filterMap id ∧
    (scrape_arxiv ⟨false, env.hrefs, netB, none⟩ term w).1.csv =
      (scrape_arxiv env term w).1.csv := by
  refine ⟨download_loop_links _ _ _, ?_⟩
  rw [scrape_csv env term w hwait hcsv,
    scrape_csv ⟨false, env.hrefs, netB, none⟩ term w rfl rfl]

/-- C8 witness: swapping `envA`'s network for one answering 404 everywhere
leaves the recorded rows identical. -/
theorem c8_links_recorded_regardless_witness :
    (download_loop envA.net envA.hrefs w0.fs).2.1 =
      [("https://arxiv.org/abs/2301.04567")] ∧
    (scrape_arxiv ⟨false, envA.hrefs, net404, none⟩ ("learning") w0).1.csv =
      (scrape_arxiv envA ("learning") w0).1.csv := by
  exact c8_links_recorded_regardless envA net404 ("learning") w0 (by rfl) (by rfl)

end ArxivScraper
